import Mathlib

/-!
Verification of the TinyPOR power-on/reset controller (src/TinyPOR.ino).

The sketch is a single-threaded Arduino program: `setup()` initialises the
pins and globals, and `loop()` is polled forever.  Each poll iteration
(1) calls `butt.update()` on the debouncer, (2) records `press_start`
on a confirmed rising edge, and (3) runs a `switch` on the current state.

Shallow embedding choices:
* The Bounce2 debouncer is external to the sketch; its confirmed one-shot
  edge reports `butt.rose()` / `butt.fell()`, the values returned by
  `millis()`, and the level read from the ACKOFF pin are the per-iteration
  inputs (`Inputs`).
* The mutable globals `press_start`, `reset_start`, `curr` form the
  machine state (`Machine`).  The global `now` is written before every
  read in the source, so it is modelled as the local value `i.t2`.
* `millis()` may be called twice in one iteration (once at line 222 for
  the rising edge, once inside the `switch`); the two reads are `t1`
  and `t2`.
* `unsigned long` is 32-bit on the ATTiny85; `now - press_start` is
  modelled by subtraction modulo 2^32 (`usub`).
* Pin writes, pin-mode changes and the `delay(100)` call are recorded as
  an ordered list of `Action`s emitted by the iteration.
-/

namespace TinyPOR

/-- Pin numbers, from the `#define`s at lines 128-132 of the source. -/
def PIN_RUN : Nat := 0

def PIN_SHUTDOWN : Nat := 2

def PIN_ACKOFF : Nat := 1

def PIN_BUTT : Nat := 3

def PIN_BUTT_LED : Nat := 4

/-- `DEBOUNCE_MS` (line 135): debounce interval of the Bounce2 filter. -/
def DEBOUNCE_MS : Nat := 100

/-- `RESET_HOLD_MS` (line 138): how long the reset pulse is held. -/
def RESET_HOLD_MS : Nat := 500

/-- `BUTTON_PRESS_MS` (line 141): hold threshold for a qualifying press. -/
def BUTTON_PRESS_MS : Nat := 500

/-- `HIGH` of the Arduino API, modelled as `true`. -/
def HIGH : Bool := true

/-- `LOW` of the Arduino API, modelled as `false`. -/
def LOW : Bool := false

/-- 2^32: modulus of the AVR `unsigned long` used for all timestamps. -/
def UL : Nat := 2 ^ 32

/-- `unsigned long` subtraction `a - b` modulo 2^32, as in
`(now - press_start)` at lines 233, 252, 265. -/
def usub (a b : Nat) : Nat := (a % UL + (UL - b % UL)) % UL

/-- `state_t` (lines 148-153). -/
inductive state_t where
  | STATE_OFF
  | STATE_STARTING
  | STATE_ON
  | STATE_SHUTTING_DOWN
deriving DecidableEq

/-- Pin direction argument of `pinMode`. -/
inductive PinMode where
  | INPUT
  | OUTPUT
deriving DecidableEq

/-- One observable side effect of an iteration: a `pinMode` call, a
`digitalWrite` call, or a `delay` call. -/
inductive Action where
  | pinModeA (pin : Nat) (mode : PinMode)
  | digitalWriteA (pin : Nat) (level : Bool)
  | delayA (ms : Nat)
deriving DecidableEq

/-- The mutable globals of the sketch (lines 160-163).  The scratch
global `now` is always written before read, so it is not part of the
persistent state. -/
structure Machine where
  press_start : Nat
  reset_start : Nat
  curr : state_t
deriving DecidableEq

/-- The per-iteration inputs of `loop()`:
* `rose` / `fell`: the one-shot confirmed edge reports of the Bounce2
  debouncer after `butt.update()` (lines 221, 231, 263);
* `ackoff`: whether `digitalRead(PIN_ACKOFF) == HIGH` (line 281);
* `t1`: the value of `millis()` at line 222 (rising-edge timestamp);
* `t2`: the value of `millis()` read inside the `switch` body
  (lines 232, 251, 264). -/
structure Inputs where
  rose : Bool
  fell : Bool
  ackoff : Bool
  t1 : Nat
  t2 : Nat
deriving DecidableEq

/-- Lines 221-223: on a confirmed rising edge, store the press time. -/
def updatePress (m : Machine) (i : Inputs) : Machine :=
  if i.rose then { m with press_start := i.t1 } else m

/-- One iteration of `loop()` (lines 215-293): the rising-edge bookkeeping
followed by the `switch (curr)`.  Returns the new globals and the ordered
list of hardware side effects of the iteration. -/
def loop (m : Machine) (i : Inputs) : Machine × List Action :=
  let m1 := updatePress m i
  match m.curr with
  | state_t.STATE_OFF =>
      if i.fell then
        if BUTTON_PRESS_MS ≤ usub i.t2 m1.press_start then
          ({ m1 with press_start := 0, reset_start := i.t2,
                     curr := state_t.STATE_STARTING },
           [Action.pinModeA PIN_RUN PinMode.OUTPUT,
            Action.digitalWriteA PIN_RUN LOW,
            Action.digitalWriteA PIN_BUTT_LED LOW])
        else
          ({ m1 with press_start := 0 }, [])
      else (m1, [])
  | state_t.STATE_STARTING =>
      if RESET_HOLD_MS ≤ usub i.t2 m1.reset_start then
        ({ m1 with curr := state_t.STATE_ON },
         [Action.digitalWriteA PIN_RUN HIGH,
          Action.pinModeA PIN_RUN PinMode.INPUT,
          Action.digitalWriteA PIN_BUTT_LED HIGH])
      else (m1, [])
  | state_t.STATE_ON =>
      if i.fell then
        if BUTTON_PRESS_MS ≤ usub i.t2 m1.press_start then
          ({ m1 with press_start := 0,
                     curr := state_t.STATE_SHUTTING_DOWN },
           [Action.digitalWriteA PIN_SHUTDOWN HIGH,
            Action.delayA 100,
            Action.digitalWriteA PIN_SHUTDOWN LOW])
        else
          ({ m1 with press_start := 0 }, [])
      else (m1, [])
  | state_t.STATE_SHUTTING_DOWN =>
      if i.ackoff then
        ({ m1 with curr := state_t.STATE_OFF },
         [Action.digitalWriteA PIN_BUTT_LED LOW])
      else (m1, [])

/-- `setup()` (lines 169-209): the initial globals (`curr = STATE_ON`,
`press_start = 0`, `reset_start = 0`) and the pin-initialisation actions,
in source order. -/
def setup : Machine × List Action :=
  ({ press_start := 0, reset_start := 0, curr := state_t.STATE_ON },
   [Action.digitalWriteA PIN_ACKOFF LOW,
    Action.pinModeA PIN_ACKOFF PinMode.INPUT,
    Action.digitalWriteA PIN_SHUTDOWN LOW,
    Action.pinModeA PIN_SHUTDOWN PinMode.OUTPUT,
    Action.digitalWriteA PIN_BUTT LOW,
    Action.pinModeA PIN_BUTT PinMode.INPUT,
    Action.pinModeA PIN_BUTT_LED PinMode.OUTPUT,
    Action.digitalWriteA PIN_BUTT_LED HIGH,
    Action.digitalWriteA PIN_RUN HIGH,
    Action.pinModeA PIN_RUN PinMode.INPUT])

/-- The cyclic successor of a state, following the one-way wrap-around
order documented at lines 144-146 of the source. -/
def cyclicSucc : state_t → state_t
  | state_t.STATE_OFF => state_t.STATE_STARTING
  | state_t.STATE_STARTING => state_t.STATE_ON
  | state_t.STATE_ON => state_t.STATE_SHUTTING_DOWN
  | state_t.STATE_SHUTTING_DOWN => state_t.STATE_OFF

/-- A single observed state step: either no transition, or the move to
the unique cyclic successor. -/
def stepRel (s s' : state_t) : Prop := s' = s ∨ s' = cyclicSucc s

/-- The sequence of values of `curr` after each iteration of a run. -/
def stateTrace (m : Machine) : List Inputs → List state_t
  | [] => []
  | i :: is => (loop m i).1.curr :: stateTrace (loop m i).1 is

/-- The same inputs with the button edge reports removed (used to state
that a short press has no effect of its own). -/
def noButton (i : Inputs) : Inputs := { i with rose := false, fell := false }

/-- The pin an action touches, if any. -/
def actionPin : Action → Option Nat
  | Action.pinModeA p _ => some p
  | Action.digitalWriteA p _ => some p
  | Action.delayA _ => none

/-- Whether an action drives or reconfigures the RUN line. -/
def touchesRUN (a : Action) : Prop := actionPin a = some PIN_RUN

end TinyPOR

namespace TinyPOR

/-- Helper: `unsigned long` subtraction of an unset (0) timestamp from a
non-overflowed time is the time itself. -/
theorem usub_zero (a : Nat) (h : a < UL) : usub a 0 = a := by
  unfold usub
  rw [Nat.zero_mod, Nat.sub_zero, Nat.mod_eq_of_lt h, Nat.add_mod_right,
    Nat.mod_eq_of_lt h]

/-- Helper: the rising-edge bookkeeping does not change the state. -/
theorem updatePress_curr (m : Machine) (i : Inputs) :
    (updatePress m i).curr = m.curr := by
  unfold updatePress
  split <;> rfl

/-- Helper: the rising-edge bookkeeping does not change `reset_start`. -/
theorem updatePress_reset_start (m : Machine) (i : Inputs) :
    (updatePress m i).reset_start = m.reset_start := by
  unfold updatePress
  split <;> rfl

/-- Helper: in state Off the ACKOFF pin is never read, so the iteration
is insensitive to the `ackoff` input. -/
theorem loop_off_ackoff_irrel (m : Machine) (i : Inputs)
    (hc : m.curr = state_t.STATE_OFF) (b : Bool) :
    loop m { i with ackoff := b } = loop m i := by
  unfold loop
  rw [hc]
  rfl

/-- Helper: in state Off an iteration with no falling edge keeps the
state Off and emits no action. -/
theorem loop_off_no_fall (m : Machine) (j : Inputs)
    (hc : m.curr = state_t.STATE_OFF) (hf : j.fell = false) :
    (loop m j).1.curr = state_t.STATE_OFF ∧ (loop m j).2 = [] := by
  unfold loop
  rw [hc]
  dsimp only
  rw [hf, if_neg (by simp)]
  exact ⟨by rw [updatePress_curr, hc], rfl⟩

/-- Helper: one iteration either keeps `curr` or moves it to its cyclic
successor. -/
theorem loop_curr_step (m : Machine) (i : Inputs) :
    stepRel m.curr (loop m i).1.curr := by
  obtain ⟨ps, rs, c⟩ := m
  cases c <;> unfold loop stepRel cyclicSucc <;> dsimp only <;>
    split <;> try split
  all_goals simp [updatePress_curr]

/-- Claim C1: over every run, each successive value of `curr` is either
unchanged or the unique cyclic successor of the previous one
(Off→Starting→On→ShuttingDown→Off), never skipping and never
reversing. -/
theorem C1_state_sequence_cyclic (m : Machine) (is : List Inputs) :
    List.Chain stepRel m.curr (stateTrace m is) := by
  induction is generalizing m with
  | nil => exact List.Chain.nil
  | cons i is ih =>
      exact List.Chain.cons (loop_curr_step m i) (ih (loop m i).1)

/-- Claim C2: in state Off, on a confirmed falling edge whose elapsed hold
since the recorded press start (after the rising-edge bookkeeping of this
iteration) is at least `BUTTON_PRESS_MS`, the iteration reconfigures RUN
as an output driven LOW, turns the indicator LED on (it is active low),
records `reset_start` equal to the current time, and moves to Starting. -/
theorem C2_off_qualifying_press (m : Machine) (i : Inputs)
    (hc : m.curr = state_t.STATE_OFF) (hf : i.fell = true)
    (hq : BUTTON_PRESS_MS ≤ usub i.t2 (updatePress m i).press_start) :
    (loop m i).1.curr = state_t.STATE_STARTING ∧
    (loop m i).1.reset_start = i.t2 ∧
    (loop m i).2 =
      [Action.pinModeA PIN_RUN PinMode.OUTPUT,
       Action.digitalWriteA PIN_RUN LOW,
       Action.digitalWriteA PIN_BUTT_LED LOW] := by
  unfold loop
  rw [hc]
  dsimp only
  rw [hf, if_pos rfl, if_pos hq]
  exact ⟨rfl, rfl, rfl⟩

/-- Witness for C2: a concrete qualifying press from Off (press recorded
at 1000 ms, released at 1600 ms, hold 600 ms ≥ 500 ms). -/
theorem C2_off_qualifying_press_witness :
    (loop ⟨1000, 0, state_t.STATE_OFF⟩ ⟨false, true, false, 0, 1600⟩).1.curr =
        state_t.STATE_STARTING ∧
    (loop ⟨1000, 0, state_t.STATE_OFF⟩ ⟨false, true, false, 0, 1600⟩).1.reset_start = 1600 ∧
    (loop ⟨1000, 0, state_t.STATE_OFF⟩ ⟨false, true, false, 0, 1600⟩).2 =
      [Action.pinModeA PIN_RUN PinMode.OUTPUT,
       Action.digitalWriteA PIN_RUN LOW,
       Action.digitalWriteA PIN_BUTT_LED LOW] :=
  C2_off_qualifying_press ⟨1000, 0, state_t.STATE_OFF⟩ ⟨false, true, false, 0, 1600⟩
    rfl rfl (by decide)

/-- Claim C3: in state Starting, once `now - reset_start ≥ RESET_HOLD_MS`
the iteration drives RUN HIGH, reconfigures it as a (high-impedance)
input, clears the indicator LED (HIGH = off) and moves to On; and while
in Starting the resulting state depends on no input other than the
current time `t2`. -/
theorem C3_starting_release (m : Machine) (i : Inputs)
    (hc : m.curr = state_t.STATE_STARTING) :
    (RESET_HOLD_MS ≤ usub i.t2 m.reset_start →
      (loop m i).1.curr = state_t.STATE_ON ∧
      (loop m i).2 =
        [Action.digitalWriteA PIN_RUN HIGH,
         Action.pinModeA PIN_RUN PinMode.INPUT,
         Action.digitalWriteA PIN_BUTT_LED HIGH]) ∧
    (∀ i' : Inputs, i'.t2 = i.t2 →
      (loop m i').1.curr = (loop m i).1.curr) := by
  constructor
  · intro hq
    unfold loop
    rw [hc]
    dsimp only
    rw [updatePress_reset_start, if_pos hq]
    exact ⟨rfl, rfl⟩
  · intro i' ht
    unfold loop
    rw [hc]
    dsimp only
    rw [updatePress_reset_start, updatePress_reset_start, ht]
    split
    · rfl
    · rw [updatePress_curr, updatePress_curr]

/-- Witness for C3: with `reset_start = 1000`, at `now = 1500` the hold
has elapsed and the machine moves to On; any other inputs with the same
`t2` give the same state. -/
theorem C3_starting_release_witness :
    ((loop ⟨0, 1000, state_t.STATE_STARTING⟩ ⟨false, false, false, 0, 1500⟩).1.curr =
        state_t.STATE_ON ∧
     (loop ⟨0, 1000, state_t.STATE_STARTING⟩ ⟨false, false, false, 0, 1500⟩).2 =
       [Action.digitalWriteA PIN_RUN HIGH,
        Action.pinModeA PIN_RUN PinMode.INPUT,
        Action.digitalWriteA PIN_BUTT_LED HIGH]) ∧
    (loop ⟨0, 1000, state_t.STATE_STARTING⟩ ⟨true, true, true, 7, 1500⟩).1.curr =
      (loop ⟨0, 1000, state_t.STATE_STARTING⟩ ⟨false, false, false, 0, 1500⟩).1.curr :=
  ⟨(C3_starting_release ⟨0, 1000, state_t.STATE_STARTING⟩
      ⟨false, false, false, 0, 1500⟩ rfl).1 (by decide),
   (C3_starting_release ⟨0, 1000, state_t.STATE_STARTING⟩
      ⟨false, false, false, 0, 1500⟩ rfl).2 ⟨true, true, true, 7, 1500⟩ rfl⟩

/-- Claim C4: in state On, a confirmed falling edge with elapsed hold at
least `BUTTON_PRESS_MS` emits exactly the three-action sequence
SHUTDOWN HIGH, delay 100 ms, SHUTDOWN LOW (one bounded-width pulse,
within the same transition) and moves to ShuttingDown. -/
theorem C4_on_shutdown_pulse (m : Machine) (i : Inputs)
    (hc : m.curr = state_t.STATE_ON) (hf : i.fell = true)
    (hq : BUTTON_PRESS_MS ≤ usub i.t2 (updatePress m i).press_start) :
    (loop m i).1.curr = state_t.STATE_SHUTTING_DOWN ∧
    (loop m i).2 =
      [Action.digitalWriteA PIN_SHUTDOWN HIGH,
       Action.delayA 100,
       Action.digitalWriteA PIN_SHUTDOWN LOW] := by
  unfold loop
  rw [hc]
  dsimp only
  rw [hf, if_pos rfl, if_pos hq]
  exact ⟨rfl, rfl⟩

/-- Witness for C4: a concrete qualifying press from On (press at
1000 ms, release at 1700 ms, hold 700 ms ≥ 500 ms). -/
theorem C4_on_shutdown_pulse_witness :
    (loop ⟨1000, 0, state_t.STATE_ON⟩ ⟨false, true, false, 0, 1700⟩).1.curr =
        state_t.STATE_SHUTTING_DOWN ∧
    (loop ⟨1000, 0, state_t.STATE_ON⟩ ⟨false, true, false, 0, 1700⟩).2 =
      [Action.digitalWriteA PIN_SHUTDOWN HIGH,
       Action.delayA 100,
       Action.digitalWriteA PIN_SHUTDOWN LOW] :=
  C4_on_shutdown_pulse ⟨1000, 0, state_t.STATE_ON⟩ ⟨false, true, false, 0, 1700⟩
    rfl rfl (by decide)

/-- Counterexample to C5 as stated: button input during ShuttingDown is
NOT without effect on later behaviour.  Two runs start in ShuttingDown
with `press_start = 0` and differ only in a rising button edge at
1200 ms during ShuttingDown (ACKOFF is high, so both move to Off).
A falling edge then arrives at 1600 ms.  With the rise the recorded
hold is 400 ms < 500 ms and the machine stays Off; without it the code
computes `1600 - 0 ≥ 500` and moves to Starting.  The rising edge seen
while in ShuttingDown changed the later state. -/
theorem C5_counterexample :
    (loop (loop ⟨0, 0, state_t.STATE_SHUTTING_DOWN⟩ ⟨true, false, true, 1200, 1200⟩).1
        ⟨false, true, false, 1600, 1600⟩).1.curr ≠
      (loop (loop ⟨0, 0, state_t.STATE_SHUTTING_DOWN⟩ ⟨false, false, true, 1200, 1200⟩).1
        ⟨false, true, false, 1600, 1600⟩).1.curr := by
  decide

/-- Claim C5 (amended): while in ShuttingDown, button input has no
effect on that iteration's state or outputs — the iteration's state and
actions depend only on the ACKOFF level: ACKOFF HIGH gives the single
transition to Off with the indicator LED turned on (active low), ACKOFF
LOW gives no state change and no action.  (A rising edge during
ShuttingDown does, however, still record `press_start`, which can
influence a later gesture evaluation — see the counterexample.) -/
theorem C5_shutting_down_button_inert (m : Machine) (i : Inputs)
    (hc : m.curr = state_t.STATE_SHUTTING_DOWN) :
    (∀ i' : Inputs, i'.ackoff = i.ackoff →
      (loop m i').1.curr = (loop m i).1.curr ∧ (loop m i').2 = (loop m i).2) ∧
    (i.ackoff = true →
      (loop m i).1.curr = state_t.STATE_OFF ∧
      (loop m i).2 = [Action.digitalWriteA PIN_BUTT_LED LOW]) ∧
    (i.ackoff = false →
      (loop m i).1.curr = state_t.STATE_SHUTTING_DOWN ∧ (loop m i).2 = []) := by
  refine ⟨?_, ?_, ?_⟩
  · intro i' ha
    unfold loop
    rw [hc]
    dsimp only
    rw [ha]
    split
    · exact ⟨rfl, rfl⟩
    · exact ⟨by rw [updatePress_curr, updatePress_curr], rfl⟩
  · intro ha
    unfold loop
    rw [hc]
    dsimp only
    rw [ha, if_pos rfl]
    exact ⟨rfl, rfl⟩
  · intro ha
    unfold loop
    rw [hc]
    dsimp only
    rw [ha]
    rw [if_neg (by simp)]
    exact ⟨by rw [updatePress_curr, hc], rfl⟩

/-- Witness for C5 (amended): in ShuttingDown with ACKOFF high, an
iteration with both button edges asserted gives the same state and
actions as one with no button activity, namely the transition to Off
with the indicator action. -/
theorem C5_shutting_down_button_inert_witness :
    ((loop ⟨0, 0, state_t.STATE_SHUTTING_DOWN⟩ ⟨true, true, true, 300, 300⟩).1.curr =
        (loop ⟨0, 0, state_t.STATE_SHUTTING_DOWN⟩ ⟨false, false, true, 0, 0⟩).1.curr ∧
     (loop ⟨0, 0, state_t.STATE_SHUTTING_DOWN⟩ ⟨true, true, true, 300, 300⟩).2 =
        (loop ⟨0, 0, state_t.STATE_SHUTTING_DOWN⟩ ⟨false, false, true, 0, 0⟩).2) ∧
    ((loop ⟨0, 0, state_t.STATE_SHUTTING_DOWN⟩ ⟨false, false, true, 0, 0⟩).1.curr =
        state_t.STATE_OFF ∧
     (loop ⟨0, 0, state_t.STATE_SHUTTING_DOWN⟩ ⟨false, false, true, 0, 0⟩).2 =
        [Action.digitalWriteA PIN_BUTT_LED LOW]) :=
  ⟨(C5_shutting_down_button_inert ⟨0, 0, state_t.STATE_SHUTTING_DOWN⟩
      ⟨false, false, true, 0, 0⟩ rfl).1 ⟨true, true, true, 300, 300⟩ rfl,
   (C5_shutting_down_button_inert ⟨0, 0, state_t.STATE_SHUTTING_DOWN⟩
      ⟨false, false, true, 0, 0⟩ rfl).2.1 rfl⟩

/-- Counterexample to C6 as stated: a confirmed falling edge while in
Starting does NOT clear `press_start`.  With `press_start = 1000`, a
falling edge arriving while in Starting (reset hold not yet elapsed)
leaves `press_start = 1000`, not 0. -/
theorem C6_counterexample :
    (loop ⟨1000, 0, state_t.STATE_STARTING⟩ ⟨false, true, false, 0, 0⟩).1.press_start ≠ 0 := by
  decide

/-- Claim C6 (amended): a confirmed falling edge clears `press_start`
to 0 before the iteration ends when the current state is Off or On (the
only states whose `switch` case handles `fell()`); in Starting and
ShuttingDown a falling edge leaves `press_start` unchanged (equal to its
value after the rising-edge bookkeeping). -/
theorem C6_fall_clears_press_start (m : Machine) (i : Inputs)
    (hf : i.fell = true) :
    ((m.curr = state_t.STATE_OFF ∨ m.curr = state_t.STATE_ON) →
      (loop m i).1.press_start = 0) ∧
    ((m.curr = state_t.STATE_STARTING ∨ m.curr = state_t.STATE_SHUTTING_DOWN) →
      (loop m i).1.press_start = (updatePress m i).press_start) := by
  constructor
  · intro h
    rcases h with hc | hc <;>
      · unfold loop
        rw [hc]
        dsimp only
        rw [hf, if_pos rfl]
        split <;> rfl
  · intro h
    rcases h with hc | hc <;>
      · unfold loop
        rw [hc]
        dsimp only
        split <;> rfl

/-- Witness for C6 (amended): a short falling edge in Off clears
`press_start` from 1000 to 0, while the same falling edge in Starting
leaves it at its bookkept value. -/
theorem C6_fall_clears_press_start_witness :
    (loop ⟨1000, 0, state_t.STATE_OFF⟩ ⟨false, true, false, 0, 1100⟩).1.press_start = 0 ∧
    (loop ⟨1000, 0, state_t.STATE_SHUTTING_DOWN⟩ ⟨false, true, false, 0, 1100⟩).1.press_start =
      (updatePress ⟨1000, 0, state_t.STATE_SHUTTING_DOWN⟩
        ⟨false, true, false, 0, 1100⟩).press_start :=
  ⟨(C6_fall_clears_press_start ⟨1000, 0, state_t.STATE_OFF⟩
      ⟨false, true, false, 0, 1100⟩ rfl).1 (Or.inl rfl),
   (C6_fall_clears_press_start ⟨1000, 0, state_t.STATE_SHUTTING_DOWN⟩
      ⟨false, true, false, 0, 1100⟩ rfl).2 (Or.inr rfl)⟩

/-- Counterexample to C7 as stated: a confirmed falling edge with
`press_start` unset (0) and no preceding rising edge is NOT a no-op.
In Off with `press_start = 0`, a falling edge at `now = 1000` makes the
code compute `1000 - 0 ≥ 500`: it transitions (to Starting) and emits
the reset actions, contradicting "no transition or output action
occurs". -/
theorem C7_counterexample :
    (loop ⟨0, 0, state_t.STATE_OFF⟩ ⟨false, true, false, 0, 1000⟩).1.curr ≠
        state_t.STATE_OFF ∧
    (loop ⟨0, 0, state_t.STATE_OFF⟩ ⟨false, true, false, 0, 1000⟩).2 ≠ [] := by
  decide

/-- Claim C7 (amended): a confirmed falling edge arriving in Off or On
while `press_start` is unset (0) is evaluated as a press that began at
time 0 — there is no defensive unset check: the iteration is a no-op
(state unchanged, no actions) exactly when `now < BUTTON_PRESS_MS`, and
otherwise it is treated as a qualifying press. -/
theorem C7_fall_with_unset_press (m : Machine) (i : Inputs)
    (hc : m.curr = state_t.STATE_OFF ∨ m.curr = state_t.STATE_ON)
    (hps : (updatePress m i).press_start = 0) (hf : i.fell = true)
    (ht : i.t2 < UL) :
    ((loop m i).1.curr = m.curr ∧ (loop m i).2 = []) ↔
      i.t2 < BUTTON_PRESS_MS := by
  rcases hc with hc | hc <;>
    · unfold loop
      rw [hc]
      dsimp only
      rw [hf, if_pos rfl, hps, usub_zero i.t2 ht]
      by_cases hq : BUTTON_PRESS_MS ≤ i.t2
      · rw [if_pos hq]
        simp only [List.cons_ne_nil]
        constructor
        · intro h
          exact absurd h.1 (by simp [hc])
        · intro h
          exact absurd hq (Nat.not_le.mpr h)
      · rw [if_neg hq]
        constructor
        · intro _
          exact Nat.not_le.mp hq
        · intro _
          exact ⟨by simp [updatePress_curr, hc], rfl⟩

/-- Witness for C7 (amended): in Off with `press_start` unset, a falling
edge at `now = 100 < 500` is a no-op. -/
theorem C7_fall_with_unset_press_witness :
    (loop ⟨0, 0, state_t.STATE_OFF⟩ ⟨false, true, false, 0, 100⟩).1.curr =
        (⟨0, 0, state_t.STATE_OFF⟩ : Machine).curr ∧
    (loop ⟨0, 0, state_t.STATE_OFF⟩ ⟨false, true, false, 0, 100⟩).2 = [] :=
  (C7_fall_with_unset_press ⟨0, 0, state_t.STATE_OFF⟩ ⟨false, true, false, 0, 100⟩
      (Or.inl rfl) rfl rfl (by decide)).mpr (by decide)

/-- Claim C8: a press released with hold shorter than `BUTTON_PRESS_MS`
has zero side effects of its own: in every state, the iteration
containing the short falling edge yields the same state and the same
actions as the same iteration with the button edges removed, and in Off
and On (the states that handle the button) the state is unchanged and no
action at all is emitted. -/
theorem C8_short_press_no_effect (m : Machine) (i : Inputs)
    (hf : i.fell = true)
    (hshort : usub i.t2 (updatePress m i).press_start < BUTTON_PRESS_MS) :
    ((loop m i).1.curr = (loop m (noButton i)).1.curr ∧
     (loop m i).2 = (loop m (noButton i)).2) ∧
    ((m.curr = state_t.STATE_OFF ∨ m.curr = state_t.STATE_ON) →
      (loop m i).1.curr = m.curr ∧ (loop m i).2 = []) := by
  have hns : ¬ BUTTON_PRESS_MS ≤ usub i.t2 (updatePress m i).press_start :=
    Nat.not_le.mpr hshort
  obtain ⟨ps, rs, c⟩ := m
  cases c
  case STATE_OFF =>
    refine ⟨?_, fun _ => ?_⟩
    · unfold loop noButton
      dsimp only
      rw [hf, if_pos rfl, if_neg hns, if_neg (show ¬(false = true) by simp)]
      exact ⟨by simp [updatePress_curr], rfl⟩
    · unfold loop
      dsimp only
      rw [hf, if_pos rfl, if_neg hns]
      exact ⟨by rw [updatePress_curr], rfl⟩
  case STATE_ON =>
    refine ⟨?_, fun _ => ?_⟩
    · unfold loop noButton
      dsimp only
      rw [hf, if_pos rfl, if_neg hns, if_neg (show ¬(false = true) by simp)]
      exact ⟨by simp [updatePress_curr], rfl⟩
    · unfold loop
      dsimp only
      rw [hf, if_pos rfl, if_neg hns]
      exact ⟨by rw [updatePress_curr], rfl⟩
  case STATE_STARTING =>
    refine ⟨?_, ?_⟩
    · unfold loop noButton
      dsimp only
      rw [updatePress_reset_start, updatePress_reset_start]
      split
      · exact ⟨rfl, rfl⟩
      · exact ⟨by rw [updatePress_curr, updatePress_curr], rfl⟩
    · intro h
      rcases h with h | h <;> exact absurd h (by simp)
  case STATE_SHUTTING_DOWN =>
    refine ⟨?_, ?_⟩
    · unfold loop noButton
      dsimp only
      split
      · exact ⟨rfl, rfl⟩
      · exact ⟨by rw [updatePress_curr, updatePress_curr], rfl⟩
    · intro h
      rcases h with h | h <;> exact absurd h (by simp)

/-- Witness for C8: in Off, a press recorded at 1000 ms and released at
1300 ms (hold 300 ms < 500 ms) leaves the state Off and emits no
action. -/
theorem C8_short_press_no_effect_witness :
    (loop ⟨1000, 0, state_t.STATE_OFF⟩ ⟨false, true, false, 0, 1300⟩).1.curr =
        (⟨1000, 0, state_t.STATE_OFF⟩ : Machine).curr ∧
    (loop ⟨1000, 0, state_t.STATE_OFF⟩ ⟨false, true, false, 0, 1300⟩).2 = [] :=
  (C8_short_press_no_effect ⟨1000, 0, state_t.STATE_OFF⟩ ⟨false, true, false, 0, 1300⟩
      rfl (by decide)).2 (Or.inl rfl)

/-- Claim C9: observing ACKOFF HIGH while in ShuttingDown transitions to
Off exactly once, emitting exactly the single indicator action; in the
resulting Off state the ACKOFF level is not read at all (any value of
`ackoff` yields the identical result), so a second iteration with ACKOFF
still HIGH and no falling edge changes nothing and emits nothing. -/
theorem C9_ackoff_transition_idempotent (m : Machine) (i : Inputs)
    (hc : m.curr = state_t.STATE_SHUTTING_DOWN) (ha : i.ackoff = true) :
    ((loop m i).1.curr = state_t.STATE_OFF ∧
     (loop m i).2 = [Action.digitalWriteA PIN_BUTT_LED LOW]) ∧
    (∀ j : Inputs, ∀ b : Bool,
      loop (loop m i).1 { j with ackoff := b } = loop (loop m i).1 j) ∧
    (∀ j : Inputs, j.fell = false →
      (loop (loop m i).1 j).1.curr = state_t.STATE_OFF ∧
      (loop (loop m i).1 j).2 = []) := by
  have h1 : (loop m i).1.curr = state_t.STATE_OFF ∧
      (loop m i).2 = [Action.digitalWriteA PIN_BUTT_LED LOW] := by
    unfold loop
    rw [hc]
    dsimp only
    rw [ha, if_pos rfl]
    exact ⟨rfl, rfl⟩
  refine ⟨h1, ?_, ?_⟩
  · intro j b
    exact loop_off_ackoff_irrel (loop m i).1 j h1.1 b
  · intro j hjf
    exact loop_off_no_fall (loop m i).1 j h1.1 hjf

/-- Witness for C9: from ShuttingDown with ACKOFF high the machine moves
to Off with the single indicator action, and a second iteration with
ACKOFF still high (and no falling edge) leaves it in Off emitting
nothing. -/
theorem C9_ackoff_transition_idempotent_witness :
    ((loop ⟨0, 0, state_t.STATE_SHUTTING_DOWN⟩ ⟨false, false, true, 0, 0⟩).1.curr =
        state_t.STATE_OFF ∧
     (loop ⟨0, 0, state_t.STATE_SHUTTING_DOWN⟩ ⟨false, false, true, 0, 0⟩).2 =
        [Action.digitalWriteA PIN_BUTT_LED LOW]) ∧
    ((loop (loop ⟨0, 0, state_t.STATE_SHUTTING_DOWN⟩ ⟨false, false, true, 0, 0⟩).1
        ⟨false, false, true, 0, 50⟩).1.curr = state_t.STATE_OFF ∧
     (loop (loop ⟨0, 0, state_t.STATE_SHUTTING_DOWN⟩ ⟨false, false, true, 0, 0⟩).1
        ⟨false, false, true, 0, 50⟩).2 = []) :=
  ⟨(C9_ackoff_transition_idempotent ⟨0, 0, state_t.STATE_SHUTTING_DOWN⟩
      ⟨false, false, true, 0, 0⟩ rfl rfl).1,
   (C9_ackoff_transition_idempotent ⟨0, 0, state_t.STATE_SHUTTING_DOWN⟩
      ⟨false, false, true, 0, 0⟩ rfl rfl).2.2 ⟨false, false, true, 0, 50⟩ rfl⟩

/-- Claim C10: `setup()` leaves the controller in state On — not Off —
with `press_start = 0` and `reset_start = 0`; consequently the first
poll iteration after power-up never writes or reconfigures the RUN line
(no reset pulse is possible), and a qualifying press in that first
iteration yields exactly the SHUTDOWN request pulse. -/
theorem C10_setup_initial_state :
    (setup.1.curr = state_t.STATE_ON ∧ setup.1.press_start = 0 ∧
     setup.1.reset_start = 0) ∧
    (∀ i : Inputs, ∀ a ∈ (loop setup.1 i).2, ¬ touchesRUN a) ∧
    (∀ i : Inputs, i.fell = true →
      BUTTON_PRESS_MS ≤ usub i.t2 (updatePress setup.1 i).press_start →
      (loop setup.1 i).2 =
        [Action.digitalWriteA PIN_SHUTDOWN HIGH,
         Action.delayA 100,
         Action.digitalWriteA PIN_SHUTDOWN LOW]) := by
  refine ⟨⟨rfl, rfl, rfl⟩, ?_, ?_⟩
  · intro i a ha
    unfold setup loop at ha
    dsimp only at ha
    split at ha <;> try split at ha
    · simp only [List.mem_cons, List.not_mem_nil, or_false] at ha
      rcases ha with rfl | rfl | rfl <;>
        simp [touchesRUN, actionPin, PIN_RUN, PIN_SHUTDOWN]
    · exact absurd ha (List.not_mem_nil a)
    · exact absurd ha (List.not_mem_nil a)
  · intro i hf hq
    have hq2 : BUTTON_PRESS_MS ≤
        usub i.t2 (updatePress ⟨0, 0, state_t.STATE_ON⟩ i).press_start := hq
    unfold setup loop
    dsimp only
    rw [hf, if_pos rfl, if_pos hq2]

/-- Witness for C10: a qualifying press in the first iteration after
`setup()` (release at 600 ms, `press_start = 0`, hold 600 ms ≥ 500 ms)
emits exactly the SHUTDOWN pulse. -/
theorem C10_setup_initial_state_witness :
    (loop setup.1 ⟨false, true, false, 0, 600⟩).2 =
      [Action.digitalWriteA PIN_SHUTDOWN HIGH,
       Action.delayA 100,
       Action.digitalWriteA PIN_SHUTDOWN LOW] :=
  C10_setup_initial_state.2.2 ⟨false, true, false, 0, 600⟩ rfl (by decide)

end TinyPOR
